import Mathlib

/-!
Verification of the detection-to-announcement decision pipeline of the
Third-Eye repository (component `ObjectDetection`).

The definitions below are a shallow embedding of the functions
`speak`, `getDirectionalGuidance`, `estimateDistance`, `getPriorityLevel`,
`announceDetections` and the `processFrame` effect of the source component.
JavaScript numbers are modelled by `ℚ`, extended with a `+Infinity` point
(`JsDist.inf`) where the pipeline can actually produce it
(`Math.sqrt(1000000 / 0)` for a zero-area box).  Times are milliseconds
(`ℤ`, as returned by `Date.now()`).
-/

namespace ThirdEye

/-- A bounding box `[x, y, width, height]` as produced by the detection model
(the source stores it as a 4-element array `bbox`). -/
structure BBox where
  x : ℚ
  y : ℚ
  w : ℚ
  h : ℚ
deriving DecidableEq

/-- A JavaScript number appearing as a distance value: either a finite
rational or `+Infinity` (which `estimateDistance` yields on a zero-area box,
since in IEEE arithmetic `1000000 / 0 = Infinity` and
`Math.sqrt(Infinity) = Math.round(Infinity * 10) / 10 = Infinity`). -/
inductive JsDist where
  | fin (val : ℚ)
  | inf
deriving DecidableEq

/-- The JS comparison `d < c` between a distance and a finite number:
`Infinity < c` is `false`. -/
def JsDist.ltQ : JsDist → ℚ → Bool
  | .fin v, c => v < c
  | .inf, _ => false

/-- The relation "the JS comparator value `a - b` is `≤ 0`" between two
distance values.  `Infinity - Infinity` is `NaN`, and ECMA-262 `SortCompare`
treats a `NaN` comparator result as `+0`, so two infinite distances compare
as equal; `Infinity - b` is positive for finite `b`, and `a - Infinity`
negative for finite `a`. -/
def JsDist.leD : JsDist → JsDist → Bool
  | .fin a, .fin b => a ≤ b
  | .fin _, .inf => true
  | .inf, .fin _ => false
  | .inf, .inf => true

/-- The JS expression `detection.distance || 0`: an absent (`undefined`)
distance is replaced by `0`.  (`0 || 0` is also `0`, so `getD` agrees with
the JS truthiness semantics on every reachable value.) -/
def jsOr0 (distance : Option JsDist) : JsDist := distance.getD (JsDist.fin 0)

/-- `q.toFixed(1)` for a finite JS number whose value is the rational `q`:
the number is rendered with exactly one decimal digit, rounding half away
from zero (only nonnegative multiples of `1/10` reach this function in the
pipeline, where this agrees with ECMA-262 `toFixed`). -/
def toFixed1 (q : ℚ) : String :=
  let n : ℤ := round (q * 10)
  if n < 0 then "-" ++ toString ((-n).toNat / 10) ++ "." ++ toString ((-n).toNat % 10)
  else toString (n.toNat / 10) ++ "." ++ toString (n.toNat % 10)

/-- `distance.toFixed(1)` on a distance value; `(Infinity).toFixed(1)` is
the string `"Infinity"`. -/
def JsDist.toFixed1 : JsDist → String
  | .fin v => ThirdEye.toFixed1 v
  | .inf => "Infinity"

/-- One object instance reported by the model for a single frame
(source interface `Detection`).  The field `class` of the source is called
`cls` here because `class` is a reserved word in Lean; `distance` is the
optional field `distance?: number`. -/
structure Detection where
  bbox : BBox
  cls : String
  score : ℚ
  distance : Option JsDist := none
deriving DecidableEq

/-- The outcome of one dispatch attempt: the value of the mutable ref
`lastAnnouncementTimeRef` afterwards, and the text handed to
`window.speechSynthesis.speak` (or `none` when nothing was spoken). -/
structure SpeakResult where
  lastAnnouncementTime : ℤ
  spoken : Option String
deriving DecidableEq

/-- Source lines 55–66, the Speech Throttle & Dispatcher:

```js
const speak = (text) => {
  if (!voiceEnabled || !window.speechSynthesis) return;
  const now = Date.now();
  if (now - lastAnnouncementTimeRef.current < 2000) return;
  ... window.speechSynthesis.speak(utterance);
  lastAnnouncementTimeRef.current = now;
};
```

`speechSynthesisAvailable` models the truthiness of
`window.speechSynthesis`. -/
def speak (voiceEnabled speechSynthesisAvailable : Bool)
    (lastAnnouncementTime now : ℤ) (text : String) : SpeakResult :=
  if !voiceEnabled || !speechSynthesisAvailable then ⟨lastAnnouncementTime, none⟩
  else if now - lastAnnouncementTime < 2000 then ⟨lastAnnouncementTime, none⟩
  else ⟨now, some text⟩

/-- Source lines 68–74, the Directional Locator:

```js
const centerX = x + width / 2;
if (centerX < 0.3) return "on your left";
if (centerX > 0.7) return "on your right";
return "directly ahead";
``` -/
def getDirectionalGuidance (bbox : BBox) : String :=
  let centerX := bbox.x + bbox.w / 2
  if centerX < 0.3 then "on your left"
  else if centerX > 0.7 then "on your right"
  else "directly ahead"

/-- Fuel-driven binary search used to realise `⌊Real.sqrt m⌋` on naturals by
a structurally recursive (hence kernel-evaluable) function.  Invariant:
`lo * lo ≤ m < hi * hi`. -/
def isqrtGo (m : ℕ) : ℕ → ℕ → ℕ → ℕ
  | 0, lo, _ => lo
  | fuel + 1, lo, hi =>
      let mid := (lo + hi) / 2
      if mid = lo then lo
      else if mid * mid ≤ m then isqrtGo m fuel mid hi else isqrtGo m fuel lo mid

/-- `⌊Real.sqrt m⌋` for a natural number `m` (see `isqrt_spec` below). -/
def isqrt (m : ℕ) : ℕ := isqrtGo m (m + 1) 0 (m + 1)

/-- `Math.round (10 * Math.sqrt q)` for a nonnegative rational `q`, computed
exactly on integers; `roundSqrt10_eq_round_sqrt` below certifies it against
`Real.sqrt`. -/
def roundSqrt10 (q : ℚ) : ℕ := (isqrt ⌊400 * q⌋₊ + 1) / 2

/-- Source lines 76–81, the Distance Estimator:

```js
const [, , width, height] = bbox;
const area = width * height;
const distance = Math.sqrt(1000000 / area);
return Math.round(distance * 10) / 10;
```

For `area = 0` the IEEE quotient `1000000 / 0` is `Infinity`, which `sqrt`,
`* 10`, `Math.round` and `/ 10` all preserve, so the result is `Infinity`;
that branch is written out explicitly here.  Otherwise the result is the
exact value of `Math.round(Math.sqrt(1000000 / area) * 10) / 10`. -/
def estimateDistance (bbox : BBox) : JsDist :=
  let area := bbox.w * bbox.h
  if area = 0 then JsDist.inf
  else JsDist.fin ((roundSqrt10 (1000000 / area) : ℚ) / 10)

/-- Source line 84, the array literal listing the dangerous classes
(person, car, truck, motorcycle, bicycle, bus). -/
def dangerousObjects : List String :=
  ["person", "car", "truck", "motorcycle", "bicycle", "bus"]

/-- Source line 85, the array literal listing the obstacle classes
(chair, bench, pole, fire hydrant, stop sign). -/
def obstacles : List String :=
  ["chair", "bench", "pole", "fire hydrant", "stop sign"]

/-- Source lines 83–98, the Priority Classifier:

```js
const distance = detection.distance || 0;
if (dangerousObjects.includes(detection.class)) {
  if (distance < warningDistance * 0.5) return 1;
  if (distance < warningDistance) return 2;
  return 3;
}
if (obstacles.includes(detection.class)) {
  if (distance < warningDistance * 0.4) return 2;
  return 4;
}
return 5;
``` -/
def getPriorityLevel (warningDistance : ℚ) (detection : Detection) : ℕ :=
  let distance := jsOr0 detection.distance
  if dangerousObjects.contains detection.cls then
    if distance.ltQ (warningDistance * 0.5) then 1
    else if distance.ltQ warningDistance then 2
    else 3
  else if obstacles.contains detection.cls then
    if distance.ltQ (warningDistance * 0.4) then 2 else 4
  else 5

/-- The sort comparator of source lines 117–121, as the Boolean relation
"`a` may come before `b`", i.e. "comparator `(a, b) ≤ 0`":

```js
const priorityDiff = getPriorityLevel(a) - getPriorityLevel(b);
if (priorityDiff !== 0) return priorityDiff;
return (a.distance || 0) - (b.distance || 0);
``` -/
def detLe (warningDistance : ℚ) (a b : Detection) : Bool :=
  if getPriorityLevel warningDistance a ≠ getPriorityLevel warningDistance b then
    getPriorityLevel warningDistance a < getPriorityLevel warningDistance b
  else
    (jsOr0 a.distance).leD (jsOr0 b.distance)

/-- `[...filteredDetections].sort(comparator)` of source line 117.
`Array.prototype.sort` is a stable sort ordered by the comparator, which
`List.mergeSort` with the relation `detLe` realises exactly (the comparator
is a total preorder, so the stably sorted list is unique). -/
def sortDetections (warningDistance : ℚ) (detections : List Detection) : List Detection :=
  detections.mergeSort (detLe warningDistance)

/-- Source lines 124–130, message composition for the selected detection:

```js
const distance = mostImportant.distance || 0;
const direction = getDirectionalGuidance(mostImportant.bbox);
let message = `${mostImportant.class} detected ${direction}, ${distance.toFixed(1)} meters away`;
if (distance < warningDistance * 0.5) {
  message = `Warning! ${message}`;
}
``` -/
def composeMessage (warningDistance : ℚ) (mostImportant : Detection) : String :=
  let distance := jsOr0 mostImportant.distance
  let direction := getDirectionalGuidance mostImportant.bbox
  let message := mostImportant.cls ++ " detected " ++ direction ++ ", " ++
    distance.toFixed1 ++ " meters away"
  if distance.ltQ (warningDistance * 0.5) then "Warning! " ++ message else message

/-- Source lines 100–133, the Announcement Selector plus its calls into the
throttle (`speak`):

```js
if (!voiceEnabled || !window.speechSynthesis) return;
const now = Date.now();
if (now - lastAnnouncementTimeRef.current < 2000) return;
if (detections.length === 0) { speak("Path is clear ahead"); return; }
const filteredDetections = detections.filter(d => filteredObjects.includes(d.class));
if (filteredDetections.length === 0) return;
const sortedDetections = [...filteredDetections].sort(comparator);
const mostImportant = sortedDetections[0];
... speak(message);
```

The `[]` case of the match is unreachable (the sort of a non-empty list is
non-empty) and mirrors `sortedDetections[0]` being `undefined` there. -/
def announceDetections (voiceEnabled speechSynthesisAvailable : Bool)
    (filteredObjects : List String) (warningDistance : ℚ)
    (lastAnnouncementTime now : ℤ) (detections : List Detection) : SpeakResult :=
  if !voiceEnabled || !speechSynthesisAvailable then ⟨lastAnnouncementTime, none⟩
  else if now - lastAnnouncementTime < 2000 then ⟨lastAnnouncementTime, none⟩
  else if detections.length = 0 then
    speak voiceEnabled speechSynthesisAvailable lastAnnouncementTime now "Path is clear ahead"
  else
    let filteredDetections := detections.filter (fun d => filteredObjects.contains d.cls)
    if filteredDetections.length = 0 then ⟨lastAnnouncementTime, none⟩
    else
      match sortDetections warningDistance filteredDetections with
      | [] => ⟨lastAnnouncementTime, none⟩
      | mostImportant :: _ =>
          speak voiceEnabled speechSynthesisAvailable lastAnnouncementTime now
            (composeMessage warningDistance mostImportant)

/-- The decoration step of `processFrame` (source lines 162–165):

```js
const processedDetections = predictions.map(pred => ({
  ...pred,
  distance: estimateDistance(pred.bbox)
}));
``` -/
def decorate (pred : Detection) : Detection :=
  { pred with distance := some (estimateDistance pred.bbox) }

/-- Source lines 156–176, one successful detection cycle of `processFrame`:
every prediction is decorated with its estimated distance, the decorated
list is published for display (`setDetections(processedDetections)`), and
the same list is handed to `announceDetections`.  The pair returned is
(published list, dispatch outcome). -/
def processFrame (voiceEnabled speechSynthesisAvailable : Bool)
    (filteredObjects : List String) (warningDistance : ℚ)
    (lastAnnouncementTime now : ℤ) (predictions : List Detection) :
    List Detection × SpeakResult :=
  let processedDetections := predictions.map decorate
  (processedDetections,
    announceDetections voiceEnabled speechSynthesisAvailable filteredObjects warningDistance
      lastAnnouncementTime now processedDetections)

/-! ### Helper lemmas about the embedded operations -/

/-- The dispatcher never invents a timestamp: the ref is set to `now`
exactly when something was spoken, and kept otherwise. -/
theorem speak_lastAnnouncementTime (ve av : Bool) (last now : ℤ) (text : String) :
    (speak ve av last now text).lastAnnouncementTime =
      cond (speak ve av last now text).spoken.isSome now last := by
  unfold speak
  split
  · rfl
  · split <;> rfl

/-- A dispatch attempt that passes the voice and throttle gates speaks and
stamps the ref. -/
theorem speak_pass (ve av : Bool) (last now : ℤ) (text : String)
    (hv : ve = true) (ha : av = true) (hth : 2000 ≤ now - last) :
    speak ve av last now text = ⟨now, some text⟩ := by
  subst hv; subst ha
  unfold speak
  rw [if_neg (by simp), if_neg (by omega)]

/-- A dispatch attempt inside the 2000 ms window is suppressed. -/
theorem speak_throttled (ve av : Bool) (last now : ℤ) (text : String)
    (hth : now - last < 2000) :
    speak ve av last now text = ⟨last, none⟩ := by
  unfold speak
  rw [if_pos hth]
  split <;> rfl

/-- `leD` is reflexive. -/
theorem JsDist.leD_refl (a : JsDist) : a.leD a = true := by
  cases a <;> simp [JsDist.leD]

/-- `leD` is transitive. -/
theorem JsDist.leD_trans {a b c : JsDist} (h1 : a.leD b = true) (h2 : b.leD c = true) :
    a.leD c = true := by
  cases a <;> cases b <;> cases c <;> simp_all [JsDist.leD]
  exact le_trans h1 h2

/-- `leD` is total. -/
theorem JsDist.leD_total (a b : JsDist) : (a.leD b || b.leD a) = true := by
  cases a <;> cases b <;> simp [JsDist.leD]
  exact le_total _ _

/-- The comparator relation unfolded: `a` may precede `b` iff `a` has a
strictly smaller priority tier, or the tiers are equal and the distance of
`a` is not greater. -/
theorem detLe_iff (w : ℚ) (a b : Detection) :
    detLe w a b = true ↔
      (getPriorityLevel w a < getPriorityLevel w b ∨
        (getPriorityLevel w a = getPriorityLevel w b ∧
          (jsOr0 a.distance).leD (jsOr0 b.distance) = true)) := by
  unfold detLe
  by_cases h : getPriorityLevel w a = getPriorityLevel w b
  · simp [h]
  · simp [h]

/-- The comparator relation is reflexive. -/
theorem detLe_refl (w : ℚ) (a : Detection) : detLe w a a = true :=
  (detLe_iff w a a).2 (Or.inr ⟨rfl, JsDist.leD_refl _⟩)

/-- The comparator relation is transitive. -/
theorem detLe_trans (w : ℚ) (a b c : Detection)
    (h1 : detLe w a b = true) (h2 : detLe w b c = true) : detLe w a c = true := by
  rw [detLe_iff] at h1 h2 ⊢
  rcases h1 with h1 | ⟨h1, h1d⟩ <;> rcases h2 with h2 | ⟨h2, h2d⟩
  · exact Or.inl (lt_trans h1 h2)
  · exact Or.inl (h2 ▸ h1)
  · exact Or.inl (h1 ▸ h2)
  · exact Or.inr ⟨h1.trans h2, JsDist.leD_trans h1d h2d⟩

/-- The comparator relation is total. -/
theorem detLe_total (w : ℚ) (a b : Detection) : (detLe w a b || detLe w b a) = true := by
  rw [Bool.or_eq_true, detLe_iff, detLe_iff]
  rcases Nat.lt_trichotomy (getPriorityLevel w a) (getPriorityLevel w b) with h | h | h
  · exact Or.inl (Or.inl h)
  · have htot := JsDist.leD_total (jsOr0 a.distance) (jsOr0 b.distance)
    rw [Bool.or_eq_true] at htot
    rcases htot with hd | hd
    · exact Or.inl (Or.inr ⟨h, hd⟩)
    · exact Or.inr (Or.inr ⟨h.symm, hd⟩)
  · exact Or.inr (Or.inl h)

/-- Evaluation rule for `toFixed1` once the rounded integer is known. -/
theorem toFixed1_eval (q : ℚ) (n : ℕ) (h : round (q * 10) = (n : ℤ)) :
    toFixed1 q = toString (n / 10) ++ "." ++ toString (n % 10) := by
  unfold toFixed1
  rw [h, if_neg (by exact_mod_cast Int.not_lt.2 (Int.natCast_nonneg n))]
  simp

/-- `mergeSort` on a two-element list is a single comparator call. -/
theorem mergeSort_pair {α : Type} (le : α → α → Bool) (a b : α) :
    List.mergeSort [a, b] le = if le a b then [a, b] else [b, a] := by
  rw [List.mergeSort]
  simp [List.splitInTwo, List.splitAt, List.splitAt.go, List.merge]

/-- Evaluation rule for `announceDetections` in the eligible case, given the
result of filtering and sorting. -/
theorem announceDetections_eval (fo : List String) (w : ℚ) (last now : ℤ)
    (dets : List Detection) (hth : ¬ now - last < 2000) (hne : dets ≠ [])
    (m : Detection) (rest : List Detection)
    (hsort : sortDetections w (dets.filter (fun d => fo.contains d.cls)) = m :: rest) :
    announceDetections true true fo w last now dets = ⟨now, some (composeMessage w m)⟩ := by
  have hfl : (dets.filter (fun d => fo.contains d.cls)).length ≠ 0 := by
    have hlen := congrArg List.length hsort
    simp only [sortDetections, List.length_mergeSort, List.length_cons] at hlen
    omega
  simp only [announceDetections]
  rw [if_neg (by simp), if_neg hth, if_neg (by simpa [List.length_eq_zero] using hne),
    if_neg hfl, hsort]
  exact speak_pass _ _ _ _ _ rfl rfl (by omega)

/-! ### Claim theorems -/

/-- C8: whenever the Speech Throttle & Dispatcher does not speak (voice
disabled, speech synthesis unavailable, no announcement chosen, or still
inside the 2000 ms window), `lastAnnouncementTime` is left unchanged; it is
set to `now` exactly when text is actually dispatched.  Stated for the
dispatcher `speak` itself and for a whole `announceDetections` cycle. -/
theorem timestamp_updated_only_on_dispatch (ve av : Bool) (fo : List String)
    (w : ℚ) (last now : ℤ) (text : String) (dets : List Detection) :
    (speak ve av last now text).lastAnnouncementTime =
      cond (speak ve av last now text).spoken.isSome now last ∧
    (announceDetections ve av fo w last now dets).lastAnnouncementTime =
      cond (announceDetections ve av fo w last now dets).spoken.isSome now last := by
  refine ⟨speak_lastAnnouncementTime ve av last now text, ?_⟩
  simp only [announceDetections]
  split
  · rfl
  · split
    · rfl
    · split
      · exact speak_lastAnnouncementTime _ _ _ _ _
      · split
        · rfl
        · split
          · rfl
          · exact speak_lastAnnouncementTime _ _ _ _ _

/-- C10: `estimateDistance` depends only on the product `width * height` of
the bounding box; the `x` and `y` coordinates are irrelevant. -/
theorem estimateDistance_area_only (b1 b2 : BBox) (h : b1.w * b1.h = b2.w * b2.h) :
    estimateDistance b1 = estimateDistance b2 := by
  simp only [estimateDistance]
  rw [h]

/-- Witness for C10 at two concrete boxes with different corners but equal
area. -/
theorem estimateDistance_area_only_witness :
    (⟨0, 0, 2, 50⟩ : BBox).w * (⟨0, 0, 2, 50⟩ : BBox).h =
      (⟨0.7, 0.3, 4, 25⟩ : BBox).w * (⟨0.7, 0.3, 4, 25⟩ : BBox).h ∧
    estimateDistance ⟨0, 0, 2, 50⟩ = estimateDistance ⟨0.7, 0.3, 4, 25⟩ :=
  ⟨by norm_num, estimateDistance_area_only _ _ (by norm_num)⟩

/-- C2: the throttle law.  Two consecutive dispatch attempts through `speak`
less than 2000 ms apart never both utter; attempts at least 2000 ms apart
both utter provided they are otherwise eligible (voice enabled, speech
synthesis available, and the first attempt not throttled by an earlier
announcement). -/
theorem speech_throttle_law (ve1 av1 ve2 av2 : Bool) (last0 t1 t2 : ℤ)
    (s1 s2 : String) :
    (t2 - t1 < 2000 →
      ¬((speak ve1 av1 last0 t1 s1).spoken.isSome = true ∧
        (speak ve2 av2 (speak ve1 av1 last0 t1 s1).lastAnnouncementTime t2 s2).spoken.isSome
          = true)) ∧
    (2000 ≤ t2 - t1 → 2000 ≤ t1 - last0 →
      ve1 = true → av1 = true → ve2 = true → av2 = true →
      (speak ve1 av1 last0 t1 s1).spoken = some s1 ∧
      (speak ve2 av2 (speak ve1 av1 last0 t1 s1).lastAnnouncementTime t2 s2).spoken
        = some s2) := by
  constructor
  · rintro hlt ⟨h1, h2⟩
    by_cases hsp : (speak ve1 av1 last0 t1 s1).spoken = none
    · rw [hsp] at h1
      simp at h1
    · have hfirst : speak ve1 av1 last0 t1 s1 = ⟨t1, some s1⟩ := by
        unfold speak at hsp ⊢
        split_ifs at hsp ⊢ <;> simp_all
      rw [hfirst] at h2
      rw [speak_throttled ve2 av2 t1 t2 s2 hlt] at h2
      simp at h2
  · intro hge hth hv1 ha1 hv2 ha2
    rw [speak_pass ve1 av1 last0 t1 s1 hv1 ha1 hth]
    exact ⟨rfl, by rw [speak_pass ve2 av2 t1 t2 s2 hv2 ha2 hge]⟩

/-- Witness for C2: a pair of eligible attempts 2000 ms apart both speak. -/
theorem speech_throttle_law_witness :
    ((2000 : ℤ) ≤ 4000 - 2000 ∧ (2000 : ℤ) ≤ 2000 - 0) ∧
    (speak true true 0 2000 "a").spoken = some "a" ∧
    (speak true true (speak true true 0 2000 "a").lastAnnouncementTime 4000 "b").spoken
      = some "b" :=
  ⟨⟨by norm_num, by norm_num⟩,
    (speech_throttle_law true true true true 0 2000 4000 "a" "b").2
      (by norm_num) (by norm_num) rfl rfl rfl rfl⟩

/-- C1: the Priority Classifier decision table, for a detection whose
`distance` field holds the finite value `r` and any threshold
`warningDistance > 0`: a dangerous class gets tier 1 below half the
threshold, tier 2 below the threshold and tier 3 otherwise; an obstacle
class gets tier 2 below 0.4 times the threshold and tier 4 otherwise; every
other class gets tier 5. -/
theorem priority_classifier_bands (w r : ℚ) (d : Detection) (hw : 0 < w)
    (hd : d.distance = some (JsDist.fin r)) :
    (d.cls ∈ dangerousObjects →
      getPriorityLevel w d = if r < 0.5 * w then 1 else if r < w then 2 else 3) ∧
    (d.cls ∈ obstacles →
      getPriorityLevel w d = if r < 0.4 * w then 2 else 4) ∧
    (d.cls ∉ dangerousObjects → d.cls ∉ obstacles → getPriorityLevel w d = 5) := by
  have hdisj : ∀ s ∈ obstacles, s ∉ dangerousObjects := by decide
  refine ⟨?_, ?_, ?_⟩
  · intro hmem
    simp only [getPriorityLevel, jsOr0, hd, Option.getD_some, JsDist.ltQ, List.contains,
      List.elem_eq_mem, hmem, decide_True, if_true, decide_eq_true_eq]
    rw [mul_comm w (0.5 : ℚ)]
  · intro hmem
    have hnd : d.cls ∉ dangerousObjects := hdisj _ hmem
    simp only [getPriorityLevel, jsOr0, hd, Option.getD_some, JsDist.ltQ, List.contains,
      List.elem_eq_mem, hmem, hnd, decide_True, decide_False, if_true, if_false,
      Bool.false_eq_true, decide_eq_true_eq]
    rw [mul_comm w (0.4 : ℚ)]
  · intro hnd hno
    simp only [getPriorityLevel, jsOr0, hd, Option.getD_some, List.contains,
      List.elem_eq_mem, hnd, hno, decide_False, Bool.false_eq_true, if_false]

/-- Witness for C1: a person 1 m away with a 3 m threshold is tier 1. -/
theorem priority_classifier_bands_witness :
    (0 : ℚ) < 3 ∧
    getPriorityLevel 3 ⟨⟨0, 0, 1, 1⟩, "person", 0.9, some (JsDist.fin 1)⟩ = 1 := by
  have h := (priority_classifier_bands 3 1 ⟨⟨0, 0, 1, 1⟩, "person", 0.9, some (JsDist.fin 1)⟩
    (by norm_num) rfl).1 (by decide)
  rw [if_pos (by norm_num : (1 : ℚ) < 0.5 * 3)] at h
  exact ⟨by norm_num, h⟩

/-- C9: a detection whose `distance` field is absent is treated as being at
distance 0, so it lands in the most urgent band of its class set (tier 1 if
dangerous, tier 2 if obstacle), strictly precedes any equal-tier detection
with positive finite distance in the announcement ordering, and its message
carries the `"Warning! "` prefix and reports `"0.0 meters away"`. -/
theorem absent_distance_most_urgent (w : ℚ) (d d2 : Detection) (hw : 0 < w)
    (hd : d.distance = none) :
    (d.cls ∈ dangerousObjects → getPriorityLevel w d = 1) ∧
    (d.cls ∈ obstacles → getPriorityLevel w d = 2) ∧
    (∀ q : ℚ, 0 < q → d2.distance = some (JsDist.fin q) →
      getPriorityLevel w d2 = getPriorityLevel w d →
      detLe w d d2 = true ∧ detLe w d2 d = false) ∧
    composeMessage w d =
      "Warning! " ++ (d.cls ++ " detected " ++ getDirectionalGuidance d.bbox ++ ", " ++
        "0.0" ++ " meters away") := by
  have h05 : (0 : ℚ) < w * 0.5 := by positivity
  have h04 : (0 : ℚ) < w * 0.4 := by positivity
  refine ⟨?_, ?_, ?_, ?_⟩
  · intro hmem
    simp only [getPriorityLevel, jsOr0, hd, Option.getD_none, JsDist.ltQ, List.contains,
      List.elem_eq_mem, hmem, decide_True, if_true, decide_eq_true_eq]
    rw [if_pos h05]
  · intro hmem
    have hnd : d.cls ∉ dangerousObjects := by
      have hdisj : ∀ s ∈ obstacles, s ∉ dangerousObjects := by decide
      exact hdisj _ hmem
    simp only [getPriorityLevel, jsOr0, hd, Option.getD_none, JsDist.ltQ, List.contains,
      List.elem_eq_mem, hmem, hnd, decide_True, decide_False, Bool.false_eq_true, if_true,
      if_false, decide_eq_true_eq]
    rw [if_pos h04]
  · intro q hq hd2 hpr
    constructor
    · exact (detLe_iff w d d2).2 (Or.inr ⟨hpr.symm, by
        simp only [jsOr0, hd, hd2, Option.getD_none, Option.getD_some, JsDist.leD,
          decide_eq_true_eq]
        linarith⟩)
    · rw [Bool.eq_false_iff]
      intro hle
      rcases (detLe_iff w d2 d).1 hle with hlt | ⟨_, hled⟩
      · omega
      · simp only [jsOr0, hd, hd2, Option.getD_none, Option.getD_some, JsDist.leD,
          decide_eq_true_eq] at hled
        linarith
  · have htf : JsDist.toFixed1 (jsOr0 d.distance) = "0.0" := by
      rw [hd]
      show JsDist.toFixed1 (JsDist.fin 0) = "0.0"
      rw [JsDist.toFixed1, toFixed1_eval 0 0 (by norm_num)]
      rfl
    simp only [composeMessage, jsOr0, hd, Option.getD_none]
    rw [show JsDist.ltQ (JsDist.fin 0) (w * 0.5) = true by
        simp only [JsDist.ltQ, decide_eq_true_eq]; exact h05]
    simp only [if_true]
    simp only [jsOr0, hd, Option.getD_none] at htf
    rw [htf]

/-- Witness for C9 at a concrete pair of person detections with a 3 m
threshold. -/
theorem absent_distance_most_urgent_witness :
    (0 : ℚ) < 3 ∧
    getPriorityLevel 3 ⟨⟨0, 0, 1, 1⟩, "person", 0.9, none⟩ = 1 ∧
    detLe 3 ⟨⟨0, 0, 1, 1⟩, "person", 0.9, none⟩
      ⟨⟨0.5, 0, 1, 1⟩, "person", 0.9, some (JsDist.fin 1)⟩ = true ∧
    composeMessage 3 ⟨⟨0, 0, 1, 1⟩, "person", 0.9, none⟩ =
      "Warning! " ++ ("person" ++ " detected " ++
        getDirectionalGuidance ⟨0, 0, 1, 1⟩ ++ ", " ++ "0.0" ++ " meters away") := by
  have h := absent_distance_most_urgent 3 ⟨⟨0, 0, 1, 1⟩, "person", 0.9, none⟩
    ⟨⟨0.5, 0, 1, 1⟩, "person", 0.9, some (JsDist.fin 1)⟩ (by norm_num) rfl
  have h1 := h.1 (by decide)
  have hp2 : getPriorityLevel 3 ⟨⟨0.5, 0, 1, 1⟩, "person", 0.9, some (JsDist.fin 1)⟩ = 1 := by
    have hmem : ("person" : String) ∈ dangerousObjects := by decide
    simp only [getPriorityLevel, jsOr0, Option.getD_some, JsDist.ltQ, List.contains,
      List.elem_eq_mem, hmem, decide_True, if_true, decide_eq_true_eq]
    norm_num
  have h2 := h.2.2.1 1 (by norm_num) rfl (by rw [h1, hp2])
  exact ⟨by norm_num, h1, h2.1, h.2.2.2⟩

/-- C3: on an empty detection list the cycle behaves exactly like a dispatch
of the fixed message `"Path is clear ahead"` — in particular the choice does
not consult `filteredObjects`; on a non-empty list none of whose classes is
in `filteredObjects`, no announcement is chosen, nothing is spoken, the
timestamp is untouched, and the decorated list is still published. -/
theorem clear_path_and_filter_silence (ve av : Bool) (fo : List String) (w : ℚ)
    (last now : ℤ) (preds : List Detection) :
    announceDetections ve av fo w last now [] =
      speak ve av last now "Path is clear ahead" ∧
    (preds ≠ [] → (∀ p ∈ preds, p.cls ∉ fo) →
      (processFrame ve av fo w last now preds).2 = ⟨last, none⟩ ∧
      (processFrame ve av fo w last now preds).1 = preds.map decorate) := by
  constructor
  · simp only [announceDetections, speak, List.length_nil]
    split_ifs <;> rfl
  · intro hne hfo
    refine ⟨?_, rfl⟩
    show announceDetections ve av fo w last now (preds.map decorate) = ⟨last, none⟩
    have hlen : ¬ (preds.map decorate).length = 0 := by
      simpa [List.length_eq_zero] using hne
    have hfil : (preds.map decorate).filter (fun d => fo.contains d.cls) = [] := by
      rw [List.filter_eq_nil_iff]
      intro d hd
      obtain ⟨p, hp, rfl⟩ := List.mem_map.1 hd
      have hnm := hfo p hp
      simp [decorate, List.contains, List.elem_eq_mem, hnm]
    simp only [announceDetections]
    by_cases h1 : (!ve || !av) = true
    · rw [if_pos h1]
    · rw [if_neg h1]
      by_cases h2 : now - last < 2000
      · rw [if_pos h2]
      · rw [if_neg h2, if_neg hlen, if_pos (by rw [hfil]; rfl)]

/-- Witness for C3 at a concrete dog detection filtered out by a
person-only configuration. -/
theorem clear_path_and_filter_silence_witness :
    ([⟨⟨0, 0, 100, 100⟩, "dog", 0.5, none⟩] : List Detection) ≠ [] ∧
    (∀ p ∈ ([⟨⟨0, 0, 100, 100⟩, "dog", 0.5, none⟩] : List Detection), p.cls ∉ ["person"]) ∧
    (processFrame true true ["person"] 3 0 5000
      [⟨⟨0, 0, 100, 100⟩, "dog", 0.5, none⟩]).2 = ⟨0, none⟩ := by
  have h := (clear_path_and_filter_silence true true ["person"] 3 0 5000
    [⟨⟨0, 0, 100, 100⟩, "dog", 0.5, none⟩]).2 (by simp) (by decide)
  exact ⟨by simp, by decide, h.1⟩

/-- C4: for every non-empty filtered list the Announcement Selector picks a
detection whose pair (priority tier, distance) is lexicographically minimal:
a strictly lower tier wins, and equal tiers are broken in favour of a
distance that is not farther.  Concretely, with a 3 m threshold, a chair at
1.0 m and a car at 2.0 m are both tier 2 and the chair is announced. -/
theorem selector_lex_minimal (w : ℚ) (filtered : List Detection)
    (hne : filtered ≠ []) :
    (∃ m, (sortDetections w filtered).head? = some m ∧ m ∈ filtered ∧
      ∀ d ∈ filtered,
        getPriorityLevel w m < getPriorityLevel w d ∨
        (getPriorityLevel w m = getPriorityLevel w d ∧
          (jsOr0 m.distance).leD (jsOr0 d.distance) = true)) ∧
    (announceDetections true true ["chair", "car"] 3 0 2000
        [⟨⟨0.45, 0, 0.1, 0.1⟩, "chair", 0.9, some (JsDist.fin 1)⟩,
         ⟨⟨0.45, 0, 0.1, 0.1⟩, "car", 0.9, some (JsDist.fin 2)⟩]).spoken =
      some "Warning! chair detected directly ahead, 1.0 meters away" := by
  constructor
  · have hperm : (sortDetections w filtered).Perm filtered :=
      List.mergeSort_perm filtered (detLe w)
    have hsorted : List.Pairwise (fun a b => detLe w a b = true) (sortDetections w filtered) :=
      List.sorted_mergeSort
        (fun a b c => detLe_trans w a b c) (fun a b => detLe_total w a b) filtered
    rcases hs : sortDetections w filtered with _ | ⟨m, rest⟩
    · rw [hs] at hperm
      exact absurd (hperm.symm.eq_nil) hne
    · rw [hs] at hperm hsorted
      refine ⟨m, rfl, hperm.subset (List.mem_cons_self m rest), ?_⟩
      intro d hd
      have hd' : d ∈ m :: rest := hperm.symm.subset hd
      have hle : detLe w m d = true := by
        rcases List.mem_cons.1 hd' with rfl | hmem
        · exact detLe_refl w d
        · exact (List.pairwise_cons.1 hsorted).1 d hmem
      exact (detLe_iff w m d).1 hle
  · have hpchair : getPriorityLevel 3 ⟨⟨0.45, 0, 0.1, 0.1⟩, "chair", 0.9,
        some (JsDist.fin 1)⟩ = 2 := by
      have hmem : ("chair" : String) ∈ obstacles := by decide
      have hnd : ("chair" : String) ∉ dangerousObjects := by decide
      simp only [getPriorityLevel, jsOr0, Option.getD_some, JsDist.ltQ, List.contains,
        List.elem_eq_mem, hmem, hnd, decide_True, decide_False, Bool.false_eq_true,
        if_true, if_false, decide_eq_true_eq]
      norm_num
    have hpcar : getPriorityLevel 3 ⟨⟨0.45, 0, 0.1, 0.1⟩, "car", 0.9,
        some (JsDist.fin 2)⟩ = 2 := by
      have hmem : ("car" : String) ∈ dangerousObjects := by decide
      simp only [getPriorityLevel, jsOr0, Option.getD_some, JsDist.ltQ, List.contains,
        List.elem_eq_mem, hmem, decide_True, if_true, decide_eq_true_eq]
      norm_num
    have hle : detLe 3 ⟨⟨0.45, 0, 0.1, 0.1⟩, "chair", 0.9, some (JsDist.fin 1)⟩
        ⟨⟨0.45, 0, 0.1, 0.1⟩, "car", 0.9, some (JsDist.fin 2)⟩ = true := by
      refine (detLe_iff 3 _ _).2 (Or.inr ⟨by rw [hpchair, hpcar], ?_⟩)
      simp only [jsOr0, Option.getD_some, JsDist.leD, decide_eq_true_eq]
      norm_num
    have hfil : ([⟨⟨0.45, 0, 0.1, 0.1⟩, "chair", 0.9, some (JsDist.fin 1)⟩,
        ⟨⟨0.45, 0, 0.1, 0.1⟩, "car", 0.9, some (JsDist.fin 2)⟩] :
          List Detection).filter (fun d => (["chair", "car"] : List String).contains d.cls) =
        [⟨⟨0.45, 0, 0.1, 0.1⟩, "chair", 0.9, some (JsDist.fin 1)⟩,
         ⟨⟨0.45, 0, 0.1, 0.1⟩, "car", 0.9, some (JsDist.fin 2)⟩] := by
      simp only [List.filter]
      rfl
    have hsort : sortDetections 3 (([⟨⟨0.45, 0, 0.1, 0.1⟩, "chair", 0.9, some (JsDist.fin 1)⟩,
        ⟨⟨0.45, 0, 0.1, 0.1⟩, "car", 0.9, some (JsDist.fin 2)⟩] :
          List Detection).filter (fun d => (["chair", "car"] : List String).contains d.cls)) =
        ⟨⟨0.45, 0, 0.1, 0.1⟩, "chair", 0.9, some (JsDist.fin 1)⟩ ::
          [⟨⟨0.45, 0, 0.1, 0.1⟩, "car", 0.9, some (JsDist.fin 2)⟩] := by
      rw [hfil, sortDetections, mergeSort_pair, if_pos hle]
    rw [announceDetections_eval _ _ _ _ _ (by omega) (by simp) _ _ hsort]
    have hdir : getDirectionalGuidance ⟨0.45, 0, 0.1, 0.1⟩ = "directly ahead" := by
      simp only [getDirectionalGuidance]
      rw [if_neg (by norm_num), if_neg (by norm_num)]
    have htf : JsDist.toFixed1 (JsDist.fin 1) = "1.0" := by
      rw [JsDist.toFixed1, toFixed1_eval 1 10 (by norm_num [round_eq])]
      rfl
    simp only [composeMessage, jsOr0, Option.getD_some, hdir, htf]
    rw [if_pos (by simp only [JsDist.ltQ, decide_eq_true_eq]; norm_num)]
    rfl

/-- Witness for C4: for a one-element filtered list the selected detection
is that element. -/
theorem selector_lex_minimal_witness :
    ([⟨⟨0, 0, 1, 1⟩, "person", 0.9, some (JsDist.fin 1)⟩] : List Detection) ≠ [] ∧
    (∃ m, (sortDetections 3 [⟨⟨0, 0, 1, 1⟩, "person", 0.9, some (JsDist.fin 1)⟩]).head? =
        some m ∧
      m ∈ ([⟨⟨0, 0, 1, 1⟩, "person", 0.9, some (JsDist.fin 1)⟩] : List Detection) ∧
      ∀ d ∈ ([⟨⟨0, 0, 1, 1⟩, "person", 0.9, some (JsDist.fin 1)⟩] : List Detection),
        getPriorityLevel 3 m < getPriorityLevel 3 d ∨
        (getPriorityLevel 3 m = getPriorityLevel 3 d ∧
          (jsOr0 m.distance).leD (jsOr0 d.distance) = true)) :=
  ⟨by simp, (selector_lex_minimal 3 _ (by simp)).1⟩

/-- The distance actually computed for the Scenario B box
(0.1, 0.1, 0.2, 0.2): area 0.04, `sqrt(1000000 / 0.04) = 5000`. -/
theorem estimateDistance_scenario_b :
    estimateDistance ⟨0.1, 0.1, 0.2, 0.2⟩ = JsDist.fin 5000 := by
  simp only [estimateDistance]
  rw [if_neg (by norm_num : ¬((0.2 : ℚ) * 0.2 = 0)),
    show (1000000 : ℚ) / (0.2 * 0.2) = 25000000 by norm_num, roundSqrt10,
    show ⌊(400 : ℚ) * 25000000⌋₊ = 10000000000 by norm_num,
    show isqrt 10000000000 = 100000 from by decide]
  norm_num

/-- The announcement actually dispatched in Scenario B. -/
theorem spoken_scenario_b :
    (processFrame true true ["person"] 3 0 5000
        [⟨⟨0.1, 0.1, 0.2, 0.2⟩, "person", 0.9, none⟩]).2.spoken =
      some "person detected on your left, 5000.0 meters away" := by
  have hmap : ([⟨⟨0.1, 0.1, 0.2, 0.2⟩, "person", 0.9, none⟩] : List Detection).map decorate =
      [⟨⟨0.1, 0.1, 0.2, 0.2⟩, "person", 0.9, some (JsDist.fin 5000)⟩] := by
    simp [decorate, estimateDistance_scenario_b]
  have hfil : ([⟨⟨0.1, 0.1, 0.2, 0.2⟩, "person", 0.9, some (JsDist.fin 5000)⟩] :
      List Detection).filter (fun d => (["person"] : List String).contains d.cls) =
      [⟨⟨0.1, 0.1, 0.2, 0.2⟩, "person", 0.9, some (JsDist.fin 5000)⟩] := by
    simp only [List.filter]
    rfl
  have hsort : sortDetections 3 (([⟨⟨0.1, 0.1, 0.2, 0.2⟩, "person", 0.9,
      some (JsDist.fin 5000)⟩] : List Detection).filter
        (fun d => (["person"] : List String).contains d.cls)) =
      ⟨⟨0.1, 0.1, 0.2, 0.2⟩, "person", 0.9, some (JsDist.fin 5000)⟩ :: [] := by
    rw [hfil, sortDetections, List.mergeSort_singleton]
  show (announceDetections true true ["person"] 3 0 5000
    (([⟨⟨0.1, 0.1, 0.2, 0.2⟩, "person", 0.9, none⟩] : List Detection).map decorate)).spoken = _
  rw [hmap, announceDetections_eval _ _ _ _ _ (by omega) (by simp) _ _ hsort]
  have hdir : getDirectionalGuidance ⟨0.1, 0.1, 0.2, 0.2⟩ = "on your left" := by
    simp only [getDirectionalGuidance]
    rw [if_pos (by norm_num : (0.1 : ℚ) + 0.2 / 2 < 0.3)]
  have htf : JsDist.toFixed1 (JsDist.fin 5000) = "5000.0" := by
    rw [JsDist.toFixed1, toFixed1_eval 5000 50000 (by norm_num [round_eq])]
    rfl
  simp only [composeMessage, jsOr0, Option.getD_some, hdir, htf]
  rw [if_neg (by simp only [JsDist.ltQ, decide_eq_true_eq, Bool.not_eq_true]; norm_num)]
  rfl

/-- C5 counterexample: in Scenario B the estimated distance is not 5.0 and
the dispatched announcement is not the 5.0-metre message claimed by the
spec (the box (0.1, 0.1, 0.2, 0.2) has area 0.04, and
`sqrt(1000000 / 0.04) = 5000`). -/
theorem scenario_b_counterexample :
    estimateDistance ⟨0.1, 0.1, 0.2, 0.2⟩ ≠ JsDist.fin 5 ∧
    (processFrame true true ["person"] 3 0 5000
        [⟨⟨0.1, 0.1, 0.2, 0.2⟩, "person", 0.9, none⟩]).2.spoken ≠
      some "person detected on your left, 5.0 meters away" := by
  refine ⟨?_, ?_⟩
  · rw [estimateDistance_scenario_b]
    intro h
    have := JsDist.fin.inj h
    norm_num at this
  · rw [spoken_scenario_b]
    intro h
    have := Option.some.inj h
    simp at this

/-- C5 as amended: in Scenario B the estimated distance is 5000.0 m, the
direction is "on your left" (centerX = 0.2 < 0.3), and the chosen
announcement is exactly `"person detected on your left, 5000.0 meters
away"`, with no `"Warning! "` prefix since 5000 is not below half the
threshold. -/
theorem scenario_b_actual :
    estimateDistance ⟨0.1, 0.1, 0.2, 0.2⟩ = JsDist.fin 5000 ∧
    getDirectionalGuidance ⟨0.1, 0.1, 0.2, 0.2⟩ = "on your left" ∧
    (processFrame true true ["person"] 3 0 5000
        [⟨⟨0.1, 0.1, 0.2, 0.2⟩, "person", 0.9, none⟩]).2.spoken =
      some "person detected on your left, 5000.0 meters away" := by
  refine ⟨estimateDistance_scenario_b, ?_, spoken_scenario_b⟩
  simp only [getDirectionalGuidance]
  rw [if_pos (by norm_num : (0.1 : ℚ) + 0.2 / 2 < 0.3)]

/-- A zero-area box is decorated with distance `Infinity`, not skipped. -/
theorem estimateDistance_zero_area :
    estimateDistance ⟨0, 0, 0, 0.5⟩ = JsDist.inf := by
  simp only [estimateDistance]
  rw [if_pos (by norm_num : (0 : ℚ) * 0.5 = 0)]

/-- C6 counterexample: a cycle whose only detection has a zero-area box does
not skip it — the detection is decorated (with distance `Infinity`), kept in
the published list, selected, and even announced, contradicting the claim
that it is excluded from decoration, selection and announcement. -/
theorem zero_area_counterexample :
    (processFrame true true ["person"] 3 0 5000
        [⟨⟨0, 0, 0, 0.5⟩, "person", 0.9, none⟩]).1 =
      [⟨⟨0, 0, 0, 0.5⟩, "person", 0.9, some JsDist.inf⟩] ∧
    (processFrame true true ["person"] 3 0 5000
        [⟨⟨0, 0, 0, 0.5⟩, "person", 0.9, none⟩]).2.spoken =
      some "person detected on your left, Infinity meters away" := by
  have hmap : ([⟨⟨0, 0, 0, 0.5⟩, "person", 0.9, none⟩] : List Detection).map decorate =
      [⟨⟨0, 0, 0, 0.5⟩, "person", 0.9, some JsDist.inf⟩] := by
    simp [decorate, estimateDistance_zero_area]
  refine ⟨hmap, ?_⟩
  have hfil : ([⟨⟨0, 0, 0, 0.5⟩, "person", 0.9, some JsDist.inf⟩] :
      List Detection).filter (fun d => (["person"] : List String).contains d.cls) =
      [⟨⟨0, 0, 0, 0.5⟩, "person", 0.9, some JsDist.inf⟩] := by
    simp only [List.filter]
    rfl
  have hsort : sortDetections 3 (([⟨⟨0, 0, 0, 0.5⟩, "person", 0.9, some JsDist.inf⟩] :
      List Detection).filter (fun d => (["person"] : List String).contains d.cls)) =
      ⟨⟨0, 0, 0, 0.5⟩, "person", 0.9, some JsDist.inf⟩ :: [] := by
    rw [hfil, sortDetections, List.mergeSort_singleton]
  show (announceDetections true true ["person"] 3 0 5000
    (([⟨⟨0, 0, 0, 0.5⟩, "person", 0.9, none⟩] : List Detection).map decorate)).spoken = _
  rw [hmap, announceDetections_eval _ _ _ _ _ (by omega) (by simp) _ _ hsort]
  have hdir : getDirectionalGuidance ⟨0, 0, 0, 0.5⟩ = "on your left" := by
    simp only [getDirectionalGuidance]
    rw [if_pos (by norm_num : (0 : ℚ) + 0 / 2 < 0.3)]
  simp only [composeMessage, jsOr0, Option.getD_some, hdir]
  rw [if_neg (by simp [JsDist.ltQ])]
  rfl

/-- C6 as amended: zero-area detections are not skipped.  Every prediction,
including any with `width * height = 0`, is decorated and published — a
zero-area one with distance `Infinity` — and the cycle is not aborted. -/
theorem zero_area_decorated_not_skipped (ve av : Bool) (fo : List String) (w : ℚ)
    (last now : ℤ) (preds : List Detection) :
    (processFrame ve av fo w last now preds).1.length = preds.length ∧
    ∀ p ∈ preds, p.bbox.w * p.bbox.h = 0 →
      decorate p ∈ (processFrame ve av fo w last now preds).1 ∧
      (decorate p).distance = some JsDist.inf := by
  refine ⟨by simp [processFrame], ?_⟩
  intro p hp hzero
  refine ⟨List.mem_map_of_mem decorate hp, ?_⟩
  simp only [decorate, estimateDistance]
  rw [if_pos hzero]

/-- Witness for C6 (amended) at a concrete zero-area detection. -/
theorem zero_area_decorated_not_skipped_witness :
    (⟨⟨0, 0, 0, 0.5⟩, "person", 0.9, none⟩ : Detection) ∈
      ([⟨⟨0, 0, 0, 0.5⟩, "person", 0.9, none⟩] : List Detection) ∧
    (0 : ℚ) * 0.5 = 0 ∧
    (processFrame true true ["person"] 3 0 5000
        [⟨⟨0, 0, 0, 0.5⟩, "person", 0.9, none⟩]).1.length = 1 ∧
    decorate ⟨⟨0, 0, 0, 0.5⟩, "person", 0.9, none⟩ ∈
      (processFrame true true ["person"] 3 0 5000
        [⟨⟨0, 0, 0, 0.5⟩, "person", 0.9, none⟩]).1 ∧
    (decorate ⟨⟨0, 0, 0, 0.5⟩, "person", 0.9, none⟩).distance = some JsDist.inf := by
  have h := zero_area_decorated_not_skipped true true ["person"] 3 0 5000
    [⟨⟨0, 0, 0, 0.5⟩, "person", 0.9, none⟩]
  have h2 := h.2 ⟨⟨0, 0, 0, 0.5⟩, "person", 0.9, none⟩ (List.mem_singleton.2 rfl)
    (by norm_num)
  exact ⟨List.mem_singleton.2 rfl, by norm_num, h.1, h2.1, h2.2⟩

/-- The distances actually computed for the two boxes used in the display
ordering counterexample. -/
theorem estimateDistance_far_near :
    estimateDistance ⟨0.4, 0, 10, 10⟩ = JsDist.fin 100 ∧
    estimateDistance ⟨0.4, 0, 1000, 1000⟩ = JsDist.fin 1 := by
  constructor
  · simp only [estimateDistance]
    rw [if_neg (by norm_num : ¬((10 : ℚ) * 10 = 0)),
      show (1000000 : ℚ) / (10 * 10) = 10000 by norm_num, roundSqrt10,
      show ⌊(400 : ℚ) * 10000⌋₊ = 4000000 by norm_num,
      show isqrt 4000000 = 2000 from by decide]
    norm_num
  · simp only [estimateDistance]
    rw [if_neg (by norm_num : ¬((1000 : ℚ) * 1000 = 0)),
      show (1000000 : ℚ) / (1000 * 1000) = 1 by norm_num, roundSqrt10,
      show ⌊(400 : ℚ) * 1⌋₊ = 400 by norm_num,
      show isqrt 400 = 20 from by decide]
    norm_num

/-- C7 counterexample: the list published for display is the decorated list
in model order, which here is not ranked ascending by (priority tier,
distance): the first published detection is tier 3 at 100 m and the second
tier 1 at 1 m, so the first does not rank at or before the second. -/
theorem display_order_counterexample :
    (processFrame true true ["person", "car"] 3 0 5000
        [⟨⟨0.4, 0, 10, 10⟩, "person", 0.9, none⟩,
         ⟨⟨0.4, 0, 1000, 1000⟩, "car", 0.9, none⟩]).1 =
      [⟨⟨0.4, 0, 10, 10⟩, "person", 0.9, some (JsDist.fin 100)⟩,
       ⟨⟨0.4, 0, 1000, 1000⟩, "car", 0.9, some (JsDist.fin 1)⟩] ∧
    detLe 3 ⟨⟨0.4, 0, 10, 10⟩, "person", 0.9, some (JsDist.fin 100)⟩
      ⟨⟨0.4, 0, 1000, 1000⟩, "car", 0.9, some (JsDist.fin 1)⟩ = false := by
  constructor
  · show ([⟨⟨0.4, 0, 10, 10⟩, "person", 0.9, none⟩,
      ⟨⟨0.4, 0, 1000, 1000⟩, "car", 0.9, none⟩] : List Detection).map decorate = _
    simp [decorate, estimateDistance_far_near.1, estimateDistance_far_near.2]
  · have hmem : ("person" : String) ∈ dangerousObjects := by decide
    have hmemc : ("car" : String) ∈ dangerousObjects := by decide
    have hp1 : getPriorityLevel 3 ⟨⟨0.4, 0, 10, 10⟩, "person", 0.9,
        some (JsDist.fin 100)⟩ = 3 := by
      simp only [getPriorityLevel, jsOr0, Option.getD_some, JsDist.ltQ, List.contains,
        List.elem_eq_mem, hmem, decide_True, if_true, decide_eq_true_eq]
      norm_num
    have hp2 : getPriorityLevel 3 ⟨⟨0.4, 0, 1000, 1000⟩, "car", 0.9,
        some (JsDist.fin 1)⟩ = 1 := by
      simp only [getPriorityLevel, jsOr0, Option.getD_some, JsDist.ltQ, List.contains,
        List.elem_eq_mem, hmemc, decide_True, if_true, decide_eq_true_eq]
      norm_num
    rw [Bool.eq_false_iff]
    intro hle
    rcases (detLe_iff 3 _ _).1 hle with hlt | ⟨heq, _⟩
    · rw [hp1, hp2] at hlt
      omega
    · rw [hp1, hp2] at heq
      omega

/-- C7 as amended: the list published for display is exactly the decorated
detection list in the order produced by the model; the (tier, distance)
ranking is applied only inside the Announcement Selector, never to the
published list. -/
theorem published_list_decorated_in_order (ve av : Bool) (fo : List String)
    (w : ℚ) (last now : ℤ) (preds : List Detection) :
    (processFrame ve av fo w last now preds).1 = preds.map decorate := rfl

/-! ### Certification of the integer square-root realisation against
`Real.sqrt` -/

/-- The binary search maintains its invariant: with enough fuel it returns
the integer square root of `m`. -/
theorem isqrtGo_spec (m : ℕ) :
    ∀ fuel lo hi, lo * lo ≤ m → m < hi * hi → lo < hi → hi - lo ≤ 2 ^ fuel →
      isqrtGo m fuel lo hi * isqrtGo m fuel lo hi ≤ m ∧
        m < (isqrtGo m fuel lo hi + 1) * (isqrtGo m fuel lo hi + 1) := by
  intro fuel
  induction fuel with
  | zero =>
    intro lo hi h1 h2 h3 h4
    simp only [pow_zero] at h4
    have hhi : hi = lo + 1 := by omega
    subst hhi
    exact ⟨by simpa [isqrtGo] using h1, by simpa [isqrtGo] using h2⟩
  | succ n ih =>
    intro lo hi h1 h2 h3 h4
    rw [pow_succ] at h4
    simp only [isqrtGo]
    by_cases hml : (lo + hi) / 2 = lo
    · rw [if_pos hml]
      have hhi : hi = lo + 1 := by omega
      subst hhi
      exact ⟨h1, h2⟩
    · rw [if_neg hml]
      by_cases hle : (lo + hi) / 2 * ((lo + hi) / 2) ≤ m
      · rw [if_pos hle]
        exact ih ((lo + hi) / 2) hi hle h2 (by omega) (by omega)
      · rw [if_neg hle]
        exact ih lo ((lo + hi) / 2) h1 (Nat.not_le.1 hle) (by omega) (by omega)

/-- `isqrt m` is the integer square root of `m`. -/
theorem isqrt_spec (m : ℕ) :
    isqrt m * isqrt m ≤ m ∧ m < (isqrt m + 1) * (isqrt m + 1) := by
  have h2 : m < (m + 1) * (m + 1) := by nlinarith [Nat.zero_le m]
  exact isqrtGo_spec m (m + 1) 0 (m + 1) (by simp) h2 (by omega)
    (by simpa using Nat.le_of_lt (Nat.lt_two_pow (m + 1)))

/-- `roundSqrt10` computes exactly `Math.round (Math.sqrt q * 10)`: the
integer formula agrees with rounding ten times the real square root. -/
theorem roundSqrt10_eq_round_sqrt (q : ℚ) (hq : 0 ≤ q) :
    (roundSqrt10 q : ℤ) = round (Real.sqrt (q : ℝ) * 10) := by
  set n : ℕ := ⌊(400 : ℚ) * q⌋₊ with hn
  set k : ℕ := isqrt n with hk
  obtain ⟨hk1, hk2⟩ := isqrt_spec n
  rw [← hk] at hk1 hk2
  have hq400 : (0 : ℚ) ≤ 400 * q := by positivity
  have hfl : ((n : ℚ)) ≤ 400 * q := Nat.floor_le hq400
  have hfu : 400 * q < (n : ℚ) + 1 := Nat.lt_floor_add_one _
  have hflr : ((n : ℝ)) ≤ 400 * (q : ℝ) := by exact_mod_cast hfl
  have hfur : 400 * (q : ℝ) < (n : ℝ) + 1 := by exact_mod_cast hfu
  have hklr : ((k : ℝ)) ≤ Real.sqrt (400 * (q : ℝ)) := by
    rw [Real.le_sqrt (by positivity) (by positivity)]
    have hcast : ((k * k : ℕ) : ℝ) ≤ ((n : ℕ) : ℝ) := by exact_mod_cast hk1
    push_cast at hcast
    nlinarith
  have hkur : Real.sqrt (400 * (q : ℝ)) < (k : ℝ) + 1 := by
    rw [Real.sqrt_lt' (by positivity)]
    have hcast : ((n : ℕ) : ℝ) + 1 ≤ ((k + 1) * (k + 1) : ℕ) := by exact_mod_cast hk2
    push_cast at hcast
    nlinarith
  have h20 : Real.sqrt (400 * (q : ℝ)) = 20 * Real.sqrt (q : ℝ) := by
    rw [show (400 : ℝ) * (q : ℝ) = (20 : ℝ) ^ 2 * (q : ℝ) by norm_num,
      Real.sqrt_mul (by positivity), Real.sqrt_sq (by norm_num)]
  rw [h20] at hklr hkur
  set s := Real.sqrt (q : ℝ) with hs
  have hround : round (s * 10) = (((k + 1) / 2 : ℕ) : ℤ) := by
    rw [round_eq]
    rcases Nat.even_or_odd k with ⟨j, hj⟩ | ⟨j, hj⟩
    · have hj2 : k = 2 * j := by omega
      rw [hj2] at hklr hkur
      rw [hj2, show (2 * j + 1) / 2 = j from by omega]
      rw [Int.floor_eq_iff]
      push_cast at hklr hkur ⊢
      constructor <;> nlinarith
    · have hj2 : k = 2 * j + 1 := by omega
      rw [hj2] at hklr hkur
      rw [hj2, show (2 * j + 1 + 1) / 2 = j + 1 from by omega]
      rw [Int.floor_eq_iff]
      push_cast at hklr hkur ⊢
      constructor <;> nlinarith
  rw [hround]
  simp only [roundSqrt10, ← hn, ← hk]

/-- Certification of the Distance Estimator embedding: on every box with
positive area, `estimateDistance` returns exactly
`Math.round(Math.sqrt(1000000 / area) * 10) / 10` computed with the real
square root. -/
theorem estimateDistance_eq_sqrt (b : BBox) (h : 0 < b.w * b.h) :
    estimateDistance b =
      JsDist.fin (((round (Real.sqrt ((1000000 / (b.w * b.h) : ℚ) : ℝ) * 10) : ℤ) : ℚ) / 10) := by
  have hq : (0 : ℚ) ≤ 1000000 / (b.w * b.h) := by positivity
  simp only [estimateDistance]
  rw [if_neg h.ne']
  rw [← roundSqrt10_eq_round_sqrt _ hq]
  norm_num

end ThirdEye
